import Mathlib

/-!
Verification development for the Web-Andro build pipeline.

Shallow embedding of the server-side build system:
* `RealAndroidBuildSystem` models `src/server/real-android-build-system.ts`
  (the builder wired to `POST /api/projects/:id/builds` in `src/server/routes.ts`).
  External-process outcomes (keytool, gradle, jarsigner, archiver, bundletool)
  are abstracted into a record of booleans (`Env`); filesystem contents are
  modelled as association lists of (path, content) pairs with string contents.
* `MemStorage` models `src/server/storage.ts` (in-memory store).
* The zod insert schema of `src/shared/schema.ts` is modelled as a parse
  function on a record of optional raw fields.
* The multer file filter of `src/server/routes.ts` is modelled together with
  a faithful model of Node's `path.extname`.
-/

/-- File content, modelling a byte buffer. -/
abbrev Content := String

/-- `BuildConfig` from `real-android-build-system.ts` (lines 6–21). -/
structure BuildConfig where
  appName : String
  packageName : String
  versionCode : Nat
  versionName : String
  websiteUrl : Option String
  files : List (String × Content)
  keystoreValidity : Option Nat
  keystorePassword : Option String
  keyAlias : Option String
  developerName : Option String
  organizationName : Option String
  city : Option String
  state : Option String
  country : Option String
deriving DecidableEq, Repr

/-- Outcomes of the external-process invocations made by
`RealAndroidBuildSystem.buildAPK`.  Each field records whether the
corresponding invocation succeeds (`execSync` returning normally /
the archiver promise resolving). -/
structure Env where
  keytoolOk : Bool
  gradleAssembleOk : Bool
  manualApkOk : Bool
  jarsignerOk : Bool
  gradleBundleOk : Bool
  manualAabOk : Bool
deriving DecidableEq, Repr

/-- An APK file on disk: its path and whether it has been signed.
The `signed` flag models whether jarsigner has run on the file's bytes. -/
structure ApkArtifact where
  path : String
  signed : Bool
deriving DecidableEq, Repr

/-- `BuildProgress` from `real-android-build-system.ts` (lines 33–37). -/
structure BuildProgress where
  step : String
  progress : Nat
  message : String
deriving DecidableEq, Repr

/-- The `BuildResult` of `buildAPK`, with the APK tracked as an artifact
(path plus signedness) rather than a bare path. -/
structure MBuildResult where
  success : Bool
  apk : Option ApkArtifact
  aabPath : Option String
  keystorePath : Option String
  error : Option String
  progress : Nat
deriving DecidableEq, Repr

namespace RealAndroidBuildSystem

/-- `generateKeystore` (lines 580–592): a single keytool `execSync`; on
failure the exception propagates to `buildAPK`'s catch. -/
def generateKeystore (env : Env) : Option String :=
  if env.keytoolOk then some "app.jks" else none

/-- `buildWithGradle` (lines 511–530): `gradle assembleRelease`; on any
failure it falls back to `createManualAPK`; if the manual archive also
fails the rejection propagates. -/
def buildWithGradle (env : Env) : Option ApkArtifact :=
  if env.gradleAssembleOk then
    some { path := "app/build/outputs/apk/release/app-release.apk", signed := false }
  else if env.manualApkOk then
    some { path := "app-release.apk", signed := false }
  else
    none

/-- `signAPK` (lines 594–609): jarsigner signs the APK in place, then the
file is copied to the `-signed.apk` path.  On jarsigner failure the catch
block returns the original, unsigned APK — it never throws. -/
def signAPK (env : Env) (apk : ApkArtifact) : ApkArtifact :=
  if env.jarsignerOk then
    { path := apk.path.replace ".apk" "-signed.apk", signed := true }
  else
    apk

/-- `createAAB` (lines 611–658): `gradle bundleRelease`, falling back to
`createManualAAB`; if the manual archive also fails the rejection
propagates to `buildAPK`'s catch. -/
def createAAB (env : Env) : Option String :=
  if env.gradleBundleOk then some "app-release.aab"
  else if env.manualAabOk then some "app-release.aab"
  else none

/-- The nine progress events of `buildAPK` (lines 61–107), in order. -/
def progressEvents : List BuildProgress :=
  [ { step := "Initializing", progress := 5, message := "Setting up Android build environment..." },
    { step := "Creating project", progress := 15, message := "Creating Android project structure..." },
    { step := "Generating keystore", progress := 30, message := "Generating signing keystore..." },
    { step := "Creating gradle build", progress := 45, message := "Setting up Gradle build system..." },
    { step := "Building APK", progress := 60, message := "Compiling and building APK..." },
    { step := "Signing APK", progress := 75, message := "Signing APK with keystore..." },
    { step := "Creating AAB", progress := 85, message := "Creating App Bundle..." },
    { step := "Finalizing", progress := 95, message := "Finalizing build outputs..." },
    { step := "Complete", progress := 100, message := "Build completed successfully!" } ]

/-- The catch-all failure result of `buildAPK` (lines 118–126):
`success: false`, no artifact paths, `progress: 0`. -/
def failResult (msg : String) : MBuildResult :=
  { success := false, apk := none, aabPath := none, keystorePath := none,
    error := some msg, progress := 0 }

/-- `buildAPK` (lines 57–127).  Returns the build result together with the
list of progress events emitted, in order.  The `config` argument only
shapes file contents (manifest, assets, credentials), which this
control-flow model does not track; the control flow itself depends only on
the external-process outcomes in `env`. -/
def buildAPK (env : Env) (_config : BuildConfig) : MBuildResult × List BuildProgress :=
  let e := progressEvents
  -- Initializing (5), Creating project (15), Generating keystore (30)
  match generateKeystore env with
  | none => (failResult "keytool failed", e.take 3)
  | some ksPath =>
    -- Creating gradle build (45), Building APK (60)
    match buildWithGradle env with
    | none => (failResult "gradle and manual APK failed", e.take 5)
    | some apk =>
      -- Signing APK (75)
      let signedApk := signAPK env apk
      -- Creating AAB (85)
      match createAAB env with
      | none => (failResult "AAB creation failed", e.take 7)
      | some _aab =>
        -- Finalizing (95), Complete (100)
        ({ success := true,
           apk := some signedApk,
           aabPath := some "bundle.aab",
           keystorePath := some ksPath,
           error := none,
           progress := 100 }, e)

/-- The terminal status written by the build route
(`routes.ts` lines 211–250): `success` when `buildResult.success`, else
`failed`. -/
def jobStatus (res : MBuildResult) : String :=
  if res.success then "success" else "failed"

/-- The `outputPath` stored for the build by the route: set to the APK path
on the success branch, never set on the failure branch (it stays `null`
from `createBuild`). -/
def jobOutputPath (res : MBuildResult) : Option String :=
  if res.success then res.apk.map (·.path) else none

/-- The sequence of progress percentages recorded for a build: one update
per progress event (routes.ts lines 194–209), then the final update
written when the job reaches a terminal status — `100` on success
(line 217), `0` on failure (line 239). -/
def recordedProgress (env : Env) (config : BuildConfig) : List Nat :=
  ((buildAPK env config).2.map (·.progress)) ++
    [if (buildAPK env config).1.success then 100 else 0]

end RealAndroidBuildSystem

/-! ## Schema and storage (`src/shared/schema.ts`, `src/server/storage.ts`) -/

/-- A raw `POST /api/projects` body: every insertable column of the
`projects` table (`schema.ts` lines 11–28, with `id`/`createdAt`/
`updatedAt` omitted by `insertProjectSchema`), each possibly absent. -/
structure RawProject where
  name : Option String
  description : Option String
  inputType : Option String
  websiteUrl : Option String
  packageName : Option String
  appName : Option String
  version : Option String
  versionCode : Option Int
  versionName : Option String
  minSdkVersion : Option Int
  targetSdkVersion : Option Int
  iconPath : Option String
  logoPath : Option String
deriving DecidableEq, Repr

/-- `InsertProject` (`schema.ts` lines 80–84, 102): required (not-null,
no-default) columns are mandatory; columns with a database default or
nullable columns stay optional.  drizzle-zod does not inject database
defaults at parse time. -/
structure InsertProject where
  name : String
  description : Option String
  inputType : String
  websiteUrl : Option String
  packageName : String
  appName : String
  version : Option String
  versionCode : Option Int
  versionName : Option String
  minSdkVersion : Option Int
  targetSdkVersion : Option Int
  iconPath : Option String
  logoPath : Option String
deriving DecidableEq, Repr

/-- `insertProjectSchema.parse` (`routes.ts` line 50): succeeds exactly when
the required string columns are present; no format constraint is applied
to any field.  The route maps a parse failure to a 400 response with the
generic message `Invalid project data`. -/
def insertProjectSchemaParse (raw : RawProject) : Except String InsertProject :=
  match raw.name, raw.inputType, raw.packageName, raw.appName with
  | some n, some it, some pn, some an =>
    .ok { name := n, description := raw.description, inputType := it,
          websiteUrl := raw.websiteUrl, packageName := pn, appName := an,
          version := raw.version, versionCode := raw.versionCode,
          versionName := raw.versionName, minSdkVersion := raw.minSdkVersion,
          targetSdkVersion := raw.targetSdkVersion, iconPath := raw.iconPath,
          logoPath := raw.logoPath }
  | _, _, _, _ => .error "Invalid project data"

/-- A stored `Project` (`MemStorage.createProject`, `storage.ts` lines
102–119).  Fields that `createProject` does not default and that may be
absent at runtime (notably `versionName`) are `Option`s, even though the
table declares them not-null: `MemStorage` never applies the database
column defaults. -/
structure Project where
  id : Nat
  name : String
  description : Option String
  inputType : String
  websiteUrl : Option String
  packageName : String
  appName : String
  version : String
  versionCode : Int
  versionName : Option String
  minSdkVersion : Option Int
  targetSdkVersion : Option Int
  iconPath : Option String
  logoPath : Option String
  createdAt : Nat
  updatedAt : Nat
deriving DecidableEq, Repr

/-- The `version_name` column default declared in `schema.ts` line 21. -/
def versionNameColumnDefault : String := "1.0"

/-- The `version` column default declared in `schema.ts` line 19. -/
def versionColumnDefault : String := "1.0.0"

namespace MemStorage

/-- JavaScript `x || d` on an optional string: the default replaces both an
absent value and the (falsy) empty string. -/
def jsOrStr (o : Option String) (d : String) : String :=
  match o with
  | some v => if v = "" then d else v
  | none => d

/-- JavaScript `x || d` on an optional integer: `0` is falsy. -/
def jsOrInt (o : Option Int) (d : Int) : Int :=
  match o with
  | some v => if v = 0 then d else v
  | none => d

/-- `MemStorage.createProject` (`storage.ts` lines 102–119): assigns the
next id, timestamps, and defaults `version` to "1.0.0" and `versionCode`
to 1 (via `||`).  `versionName` is *not* defaulted here. -/
def createProject (counter : Nat) (now : Nat) (ins : InsertProject) : Project :=
  { id := counter,
    name := ins.name,
    description := ins.description,
    inputType := ins.inputType,
    websiteUrl := ins.websiteUrl,
    packageName := ins.packageName,
    appName := ins.appName,
    version := jsOrStr ins.version "1.0.0",
    versionCode := jsOrInt ins.versionCode 1,
    versionName := ins.versionName,
    minSdkVersion := ins.minSdkVersion,
    targetSdkVersion := ins.targetSdkVersion,
    iconPath := ins.iconPath,
    logoPath := ins.logoPath,
    createdAt := now,
    updatedAt := now }

/-- A stored `Build` row (`schema.ts` lines 30–44; `MemStorage.createBuild`
defaults `outputPath`/`aabPath`/`errorMessage` to null and `completedAt`
to null; other optional fields may be absent). -/
structure Build where
  id : Nat
  projectId : Nat
  status : String
  buildType : String
  outputPath : Option String
  aabPath : Option String
  keystorePath : Option String
  errorMessage : Option String
  progress : Option Nat
  buildStep : Option String
  buildMessage : Option String
  startedAt : Nat
  completedAt : Option Nat
deriving DecidableEq, Repr

/-- A `Partial<InsertBuild>` update: each insertable field either absent or
present.  `InsertBuild` omits `id`, `startedAt` and `completedAt`
(`schema.ts` lines 86–90), so an update can never carry those fields. -/
structure BuildUpdate where
  projectId : Option Nat := none
  status : Option String := none
  buildType : Option String := none
  outputPath : Option String := none
  aabPath : Option String := none
  keystorePath : Option String := none
  errorMessage : Option String := none
  progress : Option Nat := none
  buildStep : Option String := none
  buildMessage : Option String := none
deriving DecidableEq, Repr

/-- The object spread `{ ...build, ...updates }` of `updateBuild`
(`storage.ts` line 179): every field named in the update replaces the
stored one; every other field keeps its previous value. -/
def applyBuildUpdate (b : Build) (u : BuildUpdate) : Build :=
  { b with
    projectId := u.projectId.getD b.projectId,
    status := u.status.getD b.status,
    buildType := u.buildType.getD b.buildType,
    outputPath := match u.outputPath with | some v => some v | none => b.outputPath,
    aabPath := match u.aabPath with | some v => some v | none => b.aabPath,
    keystorePath := match u.keystorePath with | some v => some v | none => b.keystorePath,
    errorMessage := match u.errorMessage with | some v => some v | none => b.errorMessage,
    progress := match u.progress with | some v => some v | none => b.progress,
    buildStep := match u.buildStep with | some v => some v | none => b.buildStep,
    buildMessage := match u.buildMessage with | some v => some v | none => b.buildMessage }

/-- The `builds` map of `MemStorage`, id → Build, as an association list
with unique keys. -/
abbrev BuildStore := List (Nat × Build)

/-- `Map.get` on the builds map: the entry with the given key, if any. -/
def getBuild : BuildStore → Nat → Option Build
  | [], _ => none
  | (k, b) :: rest, id => if k = id then some b else getBuild rest id

/-- `Map.set` on the builds map: replace the keyed entry in place,
appending a new entry when the key is absent (JavaScript `Map.set`
preserves insertion order). -/
def setBuild : BuildStore → Nat → Build → BuildStore
  | [], id, b => [(id, b)]
  | (k, c) :: rest, id, b =>
    if k = id then (id, b) :: rest else (k, c) :: setBuild rest id b

/-- `MemStorage.updateBuild` (`storage.ts` lines 175–185): throws
`Build not found` for an unknown id (leaving the map untouched); otherwise
spreads the update over the stored build and, exactly when the update's
`status` is `success` or `failed`, stamps `completedAt` with the current
time.  Returns the (possibly unchanged) map together with the result. -/
def updateBuild (now : Nat) (st : BuildStore) (id : Nat) (u : BuildUpdate) :
    BuildStore × Except String Build :=
  match getBuild st id with
  | none => (st, .error "Build not found")
  | some b =>
    let b1 := applyBuildUpdate b u
    let b2 := if u.status = some "success" ∨ u.status = some "failed" then
                { b1 with completedAt := some now }
              else b1
    (setBuild st id b2, .ok b2)

end MemStorage

/-- The build-configuration object assembled by the build route
(`routes.ts` lines 173–191) from a stored project and the request's
signing configuration; only the fields needed by the claims are kept
faithful here, all via JavaScript `||` defaulting. -/
def mkBuildConfig (p : Project) (files : List (String × Content)) : BuildConfig :=
  { appName := MemStorage.jsOrStr (some p.appName) "My App",
    packageName := MemStorage.jsOrStr (some p.packageName) "com.example.myapp",
    versionCode := (MemStorage.jsOrInt (some p.versionCode) 1).toNat,
    versionName := MemStorage.jsOrStr p.versionName "1.0",
    websiteUrl := p.websiteUrl,
    files := files,
    keystoreValidity := some 10000,
    keystorePassword := some "android123",
    keyAlias := some "app-key",
    developerName := some "Developer",
    organizationName := some "Organization",
    city := some "City",
    state := some "State",
    country := some "US" }

/-! ## Assets and the manual APK archive -/

namespace RealAndroidBuildSystem

/-- `fs.writeFile` into a directory modelled as an association list:
writing to an existing name overwrites its content in place, otherwise
the file is appended. -/
def writeAsset : List (String × Content) → String → Content → List (String × Content)
  | [], name, c => [(name, c)]
  | (k, v) :: rest, name, c =>
    if k = name then (name, c) :: rest else (k, v) :: writeAsset rest name c

/-- `copyWebAssets` (lines 371–379): writes each supplied file, in order,
into the assets directory. -/
def copyWebAssets (assetsDir : List (String × Content))
    (files : List (String × Content)) : List (String × Content) :=
  files.foldl (fun d f => writeAsset d f.1 f.2) assetsDir

/-- Content lookup in a directory. -/
def lookupAsset : List (String × Content) → String → Option Content
  | [], _ => none
  | (k, v) :: rest, name => if k = name then some v else lookupAsset rest name

/-- The content of the last supplied pair with a given path, if any. -/
def lastContent : List (String × Content) → String → Option Content
  | [], _ => none
  | (k, v) :: rest, name =>
    match lastContent rest name with
    | some c => some c
    | none => if k = name then some v else none

/-- The minimal `classes.dex` header bytes appended by `createManualAPK`
(lines 567–571), as an abstract content marker. -/
def dexHeaderContent : Content := "dex-035-header"

/-- The `META-INF/MANIFEST.MF` content appended by `createManualAPK`
(line 574). -/
def manifestMFContent : Content :=
  "Manifest-Version: 1.0\nCreated-By: Android Builder\n"

/-- `createManualAPK` (lines 532–578): the zip entry list of the manually
assembled APK, in the order the code adds entries — the manifest, the
`res` directory, the `assets` directory, `classes.dex`, `META-INF`.
Directory trees are taken as (relative path, content) lists and prefixed
with the directory entry name, as `archive.directory` does. -/
def createManualAPK (manifest : Option Content)
    (res : List (String × Content)) (assets : List (String × Content)) :
    List (String × Content) :=
  (match manifest with
   | some m => [("AndroidManifest.xml", m)]
   | none => []) ++
  res.map (fun e => ("res/" ++ e.1, e.2)) ++
  assets.map (fun e => ("assets/" ++ e.1, e.2)) ++
  [("classes.dex", dexHeaderContent), ("META-INF/MANIFEST.MF", manifestMFContent)]

/-- The entries of an APK entry list lying in the assets area (entry name
starting with `assets/`). -/
def apkAssets (entries : List (String × Content)) : List (String × Content) :=
  entries.filter (fun e => "assets/".toList.isPrefixOf e.1.toList)

end RealAndroidBuildSystem

/-! ## Reverse-domain package identifiers (spec-side predicate)

Modelled from the spec: "package identifier matches a reverse-domain
pattern" — dot-separated segments, at least two, each starting with a
letter followed by letters, digits or underscores.  The code keeps no
such check; this predicate exists to state the claim against the code. -/

/-- One segment of a reverse-domain identifier: a letter followed by
letters, digits or underscores. -/
def reverseDomainSegment (seg : List Char) : Bool :=
  match seg with
  | [] => false
  | c :: rest => c.isAlpha && rest.all (fun d => d.isAlphanum || d = '_')

/-- Dot-splitting of a character list. -/
def dotSegs : List Char → List (List Char)
  | [] => [[]]
  | c :: rest =>
    match dotSegs rest with
    | [] => [[c]]
    | s :: ss => if c = '.' then [] :: s :: ss else (c :: s) :: ss

/-- Reverse-domain pattern: at least two dot-separated valid segments. -/
def isReverseDomain (s : String) : Bool :=
  let segs := dotSegs s.toList
  decide (2 ≤ segs.length) && segs.all reverseDomainSegment

/-! ## The multer upload filter (`routes.ts` lines 11–22) -/

namespace UploadFilter

/-- Scan of a reversed path, looking for the last dot of the basename:
returns the (reversed) characters sitting after that dot when the
basename has an extension, and `none` when a path separator is reached
first, the dot is the basename's first character (dotfiles have no
extension), or the string runs out. -/
def extAfterRev : List Char → Option (List Char)
  | [] => none
  | c :: rest =>
    if c = '/' then none
    else if c = '.' then
      match rest with
      | [] => none
      | d :: _ => if d = '/' then none else some []
    else
      match extAfterRev rest with
      | none => none
      | some a => some (c :: a)

/-- Node's `path.extname` on a character list: the suffix of the basename
(the part after the last `/`) starting at its last dot; empty when there
is no dot or the basename's last dot is its first character.  Node
additionally returns the empty string for the special name `..`; that
case comes out as extension `"."` here, and neither is an allowed type,
so the upload filter is unaffected. -/
def extnameList (cs : List Char) : List Char :=
  match extAfterRev cs.reverse with
  | none => []
  | some a => '.' :: a.reverse

/-- `path.extname` on strings. -/
def extname (s : String) : String :=
  String.mk (extnameList s.toList)

/-- JavaScript `toLowerCase`, restricted to ASCII case folding. -/
def lowerStr (s : String) : String :=
  String.mk (s.toList.map Char.toLower)

/-- The `allowedTypes` array of the multer `fileFilter`. -/
def allowedTypes : List String :=
  [".html", ".css", ".js", ".png", ".jpg", ".jpeg", ".gif", ".svg"]

/-- The multer `fileFilter` (lines 13–21): accept exactly when the
lower-cased extension of the original filename is an allowed type. -/
def fileFilterAccept (name : String) : Bool :=
  allowedTypes.contains (lowerStr (extname name))

/-- Claim-side reading of the filter: the filename has an extension — a
final dot-suffix of its basename, the dot not being the basename's first
character — that, compared case-insensitively, is one of the allowed
types. -/
def hasAllowedExtension (name : String) : Prop :=
  ∃ pre suf : List Char,
    name.toList = pre ++ '.' :: suf ∧
    ('.' : Char) ∉ suf ∧
    ('/' : Char) ∉ suf ∧
    pre ≠ [] ∧
    pre.getLast? ≠ some '/' ∧
    String.mk ('.' :: suf.map Char.toLower) ∈ allowedTypes

/-- The upload request pipeline: multer runs the filter on every incoming
file before the route handler runs; a rejected file errors the request
with `Invalid file type` and the handler — which creates the project file
records — is never reached. -/
def handleUpload (files : List String) : Except String (List String) :=
  if files.all fileFilterAccept then .ok files else .error "Invalid file type"

end UploadFilter

/-! ## The aligning builders (`professional-android-builder.ts`,
`working-android-builder.ts`) and the second `signAPK` of `storage.ts` -/

/-- An APK artifact whose alignment is also tracked. -/
structure AlignedApk where
  path : String
  signed : Bool
  aligned : Bool
deriving DecidableEq, Repr

namespace ProfessionalAndroidBuilder

/-- External-process outcomes for `ProfessionalAndroidBuilder.signAPK`. -/
structure PEnv where
  jarsignerOk : Bool
  zipalignOk : Bool
deriving DecidableEq, Repr

/-- `signAPK` (`professional-android-builder.ts` lines 521–563): jarsigner
signs the APK in place (a failure throws, caught by the outer catch which
rethrows `APK signing failed`); then zipalign is attempted into an
`-aligned.apk` file — if zipalign fails or its output is missing, the
inner catch falls back to returning the signed-but-unaligned file. -/
def signAPK (env : PEnv) (apk : AlignedApk) : Except String AlignedApk :=
  if env.jarsignerOk then
    -- jarsigner signed the file at apk.path in place
    let signedInPlace : AlignedApk := { apk with signed := true }
    if env.zipalignOk then
      .ok { path := apk.path.replace ".apk" "-aligned.apk",
            signed := true, aligned := true }
    else
      .ok signedInPlace
  else
    .error "APK signing failed"

/-- `buildAPKFile` (lines 483–519), reduced to its control flow after the
Gradle build produced an unsigned APK: sign when a keystore is configured,
then copy the final APK to the output directory.  A signing error makes
the whole build throw; an alignment failure does not. -/
def buildAPKFile (env : PEnv) (hasKeystore : Bool) (apk : AlignedApk) :
    Except String AlignedApk :=
  if hasKeystore then signAPK env apk else .ok apk

end ProfessionalAndroidBuilder

namespace WorkingAndroidBuilder

/-- `signAPK` (`working-android-builder.ts` lines 605–634): with a
keystore, jarsigner signs the APK in place and zipalign writes the final
`-signed.apk`; if zipalign fails, the signed file is copied to the final
path unchanged; if jarsigner itself fails, the outer catch copies the
unsigned input to the final path and returns it.  The function never
throws. -/
def signAPK (env : ProfessionalAndroidBuilder.PEnv) (hasKeystore : Bool)
    (apk : AlignedApk) (finalPath : String) : AlignedApk :=
  if hasKeystore then
    if env.jarsignerOk then
      if env.zipalignOk then
        { path := finalPath, signed := true, aligned := true }
      else
        -- inner catch: fs.copyFileSync of the signed, unaligned file
        { path := finalPath, signed := true, aligned := apk.aligned }
    else
      -- outer catch: "APK signing failed, returning unsigned APK"
      { path := finalPath, signed := apk.signed, aligned := apk.aligned }
  else
    -- no keystore: copy as-is
    { path := finalPath, signed := apk.signed, aligned := apk.aligned }

end WorkingAndroidBuilder

namespace ProfessionalAndroidBuildSystem

/-- `ProfessionalAndroidBuildSystem.signAPK` (`storage.ts` lines 837–857):
jarsigner signs the unsigned APK in place and the result is copied to the
`-signed.apk` path; on jarsigner failure the catch logs
"APK signing failed, returning unsigned APK" and returns the unsigned
input unchanged. -/
def signAPK (jarsignerOk : Bool) (apk : ApkArtifact) : ApkArtifact :=
  if jarsignerOk then
    { path := apk.path.replace "-unsigned.apk" "-signed.apk", signed := true }
  else
    apk

end ProfessionalAndroidBuildSystem

/-! ## Concrete fixtures -/

/-- A concrete build configuration used by closed theorems. -/
def cfg0 : BuildConfig :=
  { appName := "Demo", packageName := "com.example.demo", versionCode := 1,
    versionName := "1.0.0", websiteUrl := some "https://example.org",
    files := [], keystoreValidity := none, keystorePassword := none,
    keyAlias := none, developerName := none, organizationName := none,
    city := none, state := none, country := none }

/-- An environment where every external process succeeds except jarsigner. -/
def envSignFail : Env :=
  { keytoolOk := true, gradleAssembleOk := true, manualApkOk := true,
    jarsignerOk := false, gradleBundleOk := true, manualAabOk := true }

/-- An environment where every external process succeeds except keytool. -/
def envKeytoolFail : Env :=
  { keytoolOk := false, gradleAssembleOk := true, manualApkOk := true,
    jarsignerOk := true, gradleBundleOk := true, manualAabOk := true }

/-- An environment where the AAB stage fails hard: both the Gradle bundle
invocation and the manual fallback archive fail. -/
def envBundleFail : Env :=
  { keytoolOk := true, gradleAssembleOk := true, manualApkOk := true,
    jarsignerOk := true, gradleBundleOk := false, manualAabOk := false }

/-- An environment where every external process succeeds. -/
def envAllOk : Env :=
  { keytoolOk := true, gradleAssembleOk := true, manualApkOk := true,
    jarsignerOk := true, gradleBundleOk := true, manualAabOk := true }

/-- The control flow of `buildAPK` depends only on the external-process
outcomes: the configuration shapes file contents, which the model does
not track, so the result is independent of it. -/
theorem buildAPK_config_irrel (env : Env) (c c' : BuildConfig) :
    RealAndroidBuildSystem.buildAPK env c = RealAndroidBuildSystem.buildAPK env c' := rfl

/-- The recorded progress sequence is likewise independent of the
configuration. -/
theorem recordedProgress_config_irrel (env : Env) (c c' : BuildConfig) :
    RealAndroidBuildSystem.recordedProgress env c
      = RealAndroidBuildSystem.recordedProgress env c' := rfl

/-! ## Claim C1 (code-signing failure is fatal) -/

/-- C1 counterexample: in a build where the jarsigner invocation fails and
every other external process succeeds, `buildAPK` still reports success,
the job's terminal status is `success`, and the returned installable
package is the unsigned APK — refuting the claim that a signing failure
is always fatal and that an unsigned package is never returned. -/
theorem claim_C1_counterexample :
    envSignFail.jarsignerOk = false ∧
    (RealAndroidBuildSystem.buildAPK envSignFail cfg0).1.success = true ∧
    RealAndroidBuildSystem.jobStatus (RealAndroidBuildSystem.buildAPK envSignFail cfg0).1
      = "success" ∧
    (RealAndroidBuildSystem.buildAPK envSignFail cfg0).1.apk =
      some { path := "app/build/outputs/apk/release/app-release.apk", signed := false } := by
  decide

/-- C1 amended: a code-signing failure is never fatal — both `signAPK`
implementations catch the jarsigner error and return the unsigned APK, so
whenever the other stages succeed the job reaches `success` with the
unsigned package as its installable output. -/
theorem claim_C1_amended (env : Env) (config : BuildConfig)
    (hsign : env.jarsignerOk = false)
    (hks : env.keytoolOk = true)
    (hapk : env.gradleAssembleOk = true ∨ env.manualApkOk = true)
    (haab : env.gradleBundleOk = true ∨ env.manualAabOk = true) :
    ((RealAndroidBuildSystem.buildAPK env config).1.success = true ∧
      ((RealAndroidBuildSystem.buildAPK env config).1.apk.map (·.signed)) = some false) ∧
    (∀ apk, ProfessionalAndroidBuildSystem.signAPK false apk = apk) := by
  rw [buildAPK_config_irrel env config cfg0]
  rcases env with ⟨k, g, m, j, gb, ma⟩
  refine ⟨?_, fun apk => rfl⟩
  cases k <;> cases g <;> cases m <;> cases j <;> cases gb <;> cases ma <;>
    first | decide | simp_all

/-- C1 amended, witness at a concrete environment. -/
theorem claim_C1_amended_witness :
    ((RealAndroidBuildSystem.buildAPK envSignFail cfg0).1.success = true ∧
      ((RealAndroidBuildSystem.buildAPK envSignFail cfg0).1.apk.map (·.signed)) = some false) ∧
    (∀ apk, ProfessionalAndroidBuildSystem.signAPK false apk = apk) :=
  claim_C1_amended envSignFail cfg0 rfl rfl (Or.inl rfl) (Or.inl rfl)

/-! ## Claim C2 (AAB-stage failure is non-fatal) -/

/-- C2 counterexample: in a build where the distribution-bundle stage
fails hard (both the Gradle bundle invocation and the manual fallback
fail), the job does not reach `success` with the APK present — it reaches
`failed` with no installable package at all, refuting the claim. -/
theorem claim_C2_counterexample :
    envBundleFail.gradleBundleOk = false ∧
    envBundleFail.manualAabOk = false ∧
    (RealAndroidBuildSystem.buildAPK envBundleFail cfg0).1.success = false ∧
    (RealAndroidBuildSystem.buildAPK envBundleFail cfg0).1.apk = none ∧
    RealAndroidBuildSystem.jobStatus (RealAndroidBuildSystem.buildAPK envBundleFail cfg0).1
      = "failed" := by
  decide

/-- C2 amended: a hard failure of the AAB stage is fatal — the job reaches
`failed` with no artifacts.  Only the Gradle bundle invocation failing is
tolerated: the manual fallback then produces a bundle and the job
succeeds with both the installable package and the bundle present (the
bundle artifact is never absent from a succeeded job). -/
theorem claim_C2_amended (env : Env) (config : BuildConfig)
    (hks : env.keytoolOk = true)
    (hapk : env.gradleAssembleOk = true ∨ env.manualApkOk = true)
    (hgb : env.gradleBundleOk = false) :
    (env.manualAabOk = true →
      (RealAndroidBuildSystem.buildAPK env config).1.success = true ∧
      ((RealAndroidBuildSystem.buildAPK env config).1.apk).isSome = true ∧
      ((RealAndroidBuildSystem.buildAPK env config).1.aabPath).isSome = true) ∧
    (env.manualAabOk = false →
      (RealAndroidBuildSystem.buildAPK env config).1.success = false ∧
      (RealAndroidBuildSystem.buildAPK env config).1.apk = none ∧
      (RealAndroidBuildSystem.buildAPK env config).1.aabPath = none) := by
  rw [buildAPK_config_irrel env config cfg0]
  rcases env with ⟨k, g, m, j, gb, ma⟩
  cases k <;> cases g <;> cases m <;> cases j <;> cases gb <;> cases ma <;>
    first | decide | simp_all

/-- C2 amended, witness at a concrete environment. -/
theorem claim_C2_amended_witness :
    ((envBundleFail.manualAabOk = true →
      (RealAndroidBuildSystem.buildAPK envBundleFail cfg0).1.success = true ∧
      ((RealAndroidBuildSystem.buildAPK envBundleFail cfg0).1.apk).isSome = true ∧
      ((RealAndroidBuildSystem.buildAPK envBundleFail cfg0).1.aabPath).isSome = true) ∧
    (envBundleFail.manualAabOk = false →
      (RealAndroidBuildSystem.buildAPK envBundleFail cfg0).1.success = false ∧
      (RealAndroidBuildSystem.buildAPK envBundleFail cfg0).1.apk = none ∧
      (RealAndroidBuildSystem.buildAPK envBundleFail cfg0).1.aabPath = none)) :=
  claim_C2_amended envBundleFail cfg0 rfl (Or.inl rfl) rfl

/-! ## Claim C3 (keystore-creation failure is fatal) -/

/-- C3: whenever the signing-identity (keystore) creation step fails, the
keytool exception propagates to `buildAPK`'s catch-all: the result is not
successful, carries no installable package, the job's terminal status is
`failed`, and no output path is stored for the build. -/
theorem claim_C3_keystore_failure_fatal (env : Env) (config : BuildConfig)
    (h : env.keytoolOk = false) :
    (RealAndroidBuildSystem.buildAPK env config).1.success = false ∧
    (RealAndroidBuildSystem.buildAPK env config).1.apk = none ∧
    RealAndroidBuildSystem.jobStatus (RealAndroidBuildSystem.buildAPK env config).1
      = "failed" ∧
    RealAndroidBuildSystem.jobOutputPath (RealAndroidBuildSystem.buildAPK env config).1
      = none := by
  rw [buildAPK_config_irrel env config cfg0]
  rcases env with ⟨k, g, m, j, gb, ma⟩
  cases k <;> cases g <;> cases m <;> cases j <;> cases gb <;> cases ma <;>
    first | decide | simp_all

/-- C3 witness at a concrete environment. -/
theorem claim_C3_witness :
    (RealAndroidBuildSystem.buildAPK envKeytoolFail cfg0).1.success = false ∧
    (RealAndroidBuildSystem.buildAPK envKeytoolFail cfg0).1.apk = none ∧
    RealAndroidBuildSystem.jobStatus (RealAndroidBuildSystem.buildAPK envKeytoolFail cfg0).1
      = "failed" ∧
    RealAndroidBuildSystem.jobOutputPath (RealAndroidBuildSystem.buildAPK envKeytoolFail cfg0).1
      = none :=
  claim_C3_keystore_failure_fatal envKeytoolFail cfg0 rfl

/-! ## Claim C6 (progress in range and monotone) -/

/-- A list of naturals is monotonically non-decreasing. -/
def nondecreasing : List Nat → Bool
  | [] => true
  | [_] => true
  | a :: b :: rest => a ≤ b && nondecreasing (b :: rest)

/-- C6 counterexample: on a run whose keystore generation fails, the
recorded progress updates are 5, 15, 30 followed by the terminal failure
update which writes 0 — the sequence is not monotonically non-decreasing,
refuting the claim for the final update of a failed run. -/
theorem claim_C6_counterexample :
    RealAndroidBuildSystem.recordedProgress envKeytoolFail cfg0 = [5, 15, 30, 0] ∧
    nondecreasing (RealAndroidBuildSystem.recordedProgress envKeytoolFail cfg0) = false := by
  decide

/-- C6 amended: every recorded percentage lies in 0–100; on a run that
succeeds the whole update sequence (including the final terminal update)
is monotonically non-decreasing; on a run that fails the sequence is
monotone up to the final terminal update, which resets the percentage to
0. -/
theorem claim_C6_amended (env : Env) (config : BuildConfig) :
    (∀ p ∈ RealAndroidBuildSystem.recordedProgress env config, p ≤ 100) ∧
    ((RealAndroidBuildSystem.buildAPK env config).1.success = true →
      nondecreasing (RealAndroidBuildSystem.recordedProgress env config) = true) ∧
    ((RealAndroidBuildSystem.buildAPK env config).1.success = false →
      nondecreasing (RealAndroidBuildSystem.recordedProgress env config).dropLast = true ∧
      (RealAndroidBuildSystem.recordedProgress env config).getLast? = some 0) := by
  rw [buildAPK_config_irrel env config cfg0, recordedProgress_config_irrel env config cfg0]
  rcases env with ⟨k, g, m, j, gb, ma⟩
  cases k <;> cases g <;> cases m <;> cases j <;> cases gb <;> cases ma <;> decide

/-- C6 amended, witness: the implications discharged at concrete
environments. -/
theorem claim_C6_amended_witness :
    nondecreasing (RealAndroidBuildSystem.recordedProgress envAllOk cfg0) = true ∧
    (RealAndroidBuildSystem.recordedProgress envKeytoolFail cfg0).getLast? = some 0 :=
  ⟨(claim_C6_amended envAllOk cfg0).2.1 rfl,
   ((claim_C6_amended envKeytoolFail cfg0).2.2 rfl).2⟩

/-! ## Claim C8 (version name default) -/

/-- A concrete stored project whose `versionName` is absent. -/
def p0 : Project :=
  { id := 1, name := "Demo", description := none, inputType := "url",
    websiteUrl := some "https://example.org", packageName := "com.example.demo",
    appName := "Demo", version := "1.0.0", versionCode := 1,
    versionName := none, minSdkVersion := none, targetSdkVersion := none,
    iconPath := none, logoPath := none, createdAt := 0, updatedAt := 0 }

/-- C8 counterexample: for a build request whose version name is absent,
the build configuration handed to the builder carries version name
"1.0", not "1.0.0" — both the `version_name` column default and the build
route's fallback are "1.0" (the separate `version` column is the one that
defaults to "1.0.0"). -/
theorem claim_C8_counterexample :
    p0.versionName = none ∧
    (mkBuildConfig p0 []).versionName = "1.0" ∧
    (mkBuildConfig p0 []).versionName ≠ "1.0.0" ∧
    versionNameColumnDefault = "1.0" ∧
    versionColumnDefault = "1.0.0" := by
  decide

/-- C8 amended: for every build request in which the version name is
absent, the resulting build configuration carries the version name
"1.0" (the declared column default, matching the build route's
fallback). -/
theorem claim_C8_amended (p : Project) (files : List (String × Content))
    (h : p.versionName = none) :
    (mkBuildConfig p files).versionName = "1.0" ∧
    versionNameColumnDefault = "1.0" := by
  refine ⟨?_, rfl⟩
  simp [mkBuildConfig, MemStorage.jsOrStr, h]

/-- C8 amended, witness at a concrete project. -/
theorem claim_C8_amended_witness :
    (mkBuildConfig p0 []).versionName = "1.0" ∧
    versionNameColumnDefault = "1.0" :=
  claim_C8_amended p0 [] rfl

/-! ## Claim C4 (alignment is best-effort) -/

/-- C4: when signing succeeds but the archive-alignment tool fails or is
unavailable, both aligning builders fall back to the signed-but-unaligned
archive: `ProfessionalAndroidBuilder.signAPK` returns it without
error (so `buildAPKFile` completes and the job goes on to succeed), and
`WorkingAndroidBuilder.signAPK` copies it unchanged to the final output
path. -/
theorem claim_C4_align_best_effort (env : ProfessionalAndroidBuilder.PEnv)
    (apk : AlignedApk) (finalPath : String)
    (hsign : env.jarsignerOk = true) (halign : env.zipalignOk = false) :
    ProfessionalAndroidBuilder.signAPK env apk = .ok { apk with signed := true } ∧
    ProfessionalAndroidBuilder.buildAPKFile env true apk = .ok { apk with signed := true } ∧
    WorkingAndroidBuilder.signAPK env true apk finalPath
      = { path := finalPath, signed := true, aligned := apk.aligned } := by
  rcases env with ⟨j, z⟩
  cases j <;> cases z <;> first | exact ⟨rfl, rfl, rfl⟩ | simp_all

/-- A concrete unsigned, unaligned APK produced by the Gradle stage. -/
def apk0 : AlignedApk := { path := "app-release.apk", signed := false, aligned := false }

/-- C4 witness at a concrete environment and artifact. -/
theorem claim_C4_witness :
    ProfessionalAndroidBuilder.signAPK ⟨true, false⟩ apk0 = .ok { apk0 with signed := true } ∧
    ProfessionalAndroidBuilder.buildAPKFile ⟨true, false⟩ true apk0
      = .ok { apk0 with signed := true } ∧
    WorkingAndroidBuilder.signAPK ⟨true, false⟩ true apk0 "Demo-1.0.0-signed.apk"
      = { path := "Demo-1.0.0-signed.apk", signed := true, aligned := apk0.aligned } :=
  claim_C4_align_best_effort ⟨true, false⟩ apk0 "Demo-1.0.0-signed.apk" rfl rfl

/-! ## Claim C5 (package identifier validation) -/

/-- A raw project request whose package identifier matches no
reverse-domain pattern. -/
def rawBadPackage : RawProject :=
  { name := some "Demo", description := none, inputType := some "url",
    websiteUrl := some "https://example.org", packageName := some "####",
    appName := some "Demo", version := none, versionCode := none,
    versionName := none, minSdkVersion := none, targetSdkVersion := none,
    iconPath := none, logoPath := none }

/-- C5 counterexample: a raw build request whose package identifier is
"####" — matching no reverse-domain pattern — passes
`insertProjectSchema.parse` and a project is created carrying that
package identifier, refuting both directions of the claim. -/
theorem claim_C5_counterexample :
    isReverseDomain "####" = false ∧
    (insertProjectSchemaParse rawBadPackage).toOption.map (·.packageName)
      = some "####" ∧
    (insertProjectSchemaParse rawBadPackage).toOption.map
      (fun ins => (MemStorage.createProject 1 0 ins).packageName) = some "####" := by
  decide

/-- C5 amended: validation checks only that the required fields (name,
input type, package identifier, app name) are present; no reverse-domain
format check is applied, and the created project's package identifier is
exactly the raw request's string, whatever its shape. -/
theorem claim_C5_amended (raw : RawProject) (ins : InsertProject)
    (counter now : Nat)
    (h : insertProjectSchemaParse raw = .ok ins) :
    raw.packageName = some ins.packageName ∧
    (MemStorage.createProject counter now ins).packageName = ins.packageName ∧
    raw.name.isSome = true ∧ raw.inputType.isSome = true ∧
    raw.appName.isSome = true := by
  rcases raw with ⟨n, d, it, w, pn, an, v, vc, vn, mi, ta, ic, lo⟩
  cases n <;> cases it <;> cases pn <;> cases an <;>
    first
      | exact Except.noConfusion h
      | (injection h with h2; subst h2; exact ⟨rfl, rfl, rfl, rfl, rfl⟩)

/-- The `InsertProject` produced by parsing `rawBadPackage`. -/
def insBadPackage : InsertProject :=
  { name := "Demo", description := none, inputType := "url",
    websiteUrl := some "https://example.org", packageName := "####",
    appName := "Demo", version := none, versionCode := none,
    versionName := none, minSdkVersion := none, targetSdkVersion := none,
    iconPath := none, logoPath := none }

/-- C5 amended, witness at a concrete request. -/
theorem claim_C5_amended_witness :
    rawBadPackage.packageName = some insBadPackage.packageName ∧
    (MemStorage.createProject 1 0 insBadPackage).packageName = insBadPackage.packageName ∧
    rawBadPackage.name.isSome = true ∧ rawBadPackage.inputType.isSome = true ∧
    rawBadPackage.appName.isSome = true :=
  claim_C5_amended rawBadPackage insBadPackage 1 0 rfl

/-! ## Claim C9 (updateBuild semantics) -/

/-- Looking up a key other than the one being set is unaffected by
`setBuild`. -/
theorem getBuild_setBuild_ne (st : MemStorage.BuildStore) (id k : Nat)
    (b : MemStorage.Build) (h : k ≠ id) :
    MemStorage.getBuild (MemStorage.setBuild st id b) k = MemStorage.getBuild st k := by
  have hik : ¬ id = k := fun hh => h hh.symm
  induction st with
  | nil => simp [MemStorage.setBuild, MemStorage.getBuild, hik]
  | cons hd tl ih =>
    rcases hd with ⟨a, c⟩
    by_cases ha : a = id
    · subst ha
      simp [MemStorage.setBuild, MemStorage.getBuild, hik]
    · by_cases hak : a = k <;>
        simp [MemStorage.setBuild, MemStorage.getBuild, ha, hak, ih, h, hik]

/-- C9: `updateBuild` on an unknown id throws `Build not found` and leaves
the store unchanged; on a known id it stores and returns a build in which
every field named in the update is replaced and every other field keeps
its previous value, `completedAt` is stamped with the current time exactly
when the update's status is `success` or `failed` (and kept otherwise),
`id` and `startedAt` are untouched, and every other build in the store is
unchanged. -/
theorem claim_C9_updateBuild (now : Nat) (st : MemStorage.BuildStore)
    (id : Nat) (u : MemStorage.BuildUpdate) :
    (MemStorage.getBuild st id = none →
      MemStorage.updateBuild now st id u = (st, .error "Build not found")) ∧
    (∀ b, MemStorage.getBuild st id = some b →
      ∃ b2, MemStorage.updateBuild now st id u = (MemStorage.setBuild st id b2, .ok b2) ∧
        (b2.completedAt = if u.status = some "success" ∨ u.status = some "failed"
          then some now else b.completedAt) ∧
        b2.id = b.id ∧ b2.startedAt = b.startedAt ∧
        (u.projectId = none → b2.projectId = b.projectId) ∧
        (u.status = none → b2.status = b.status) ∧
        (u.buildType = none → b2.buildType = b.buildType) ∧
        (u.outputPath = none → b2.outputPath = b.outputPath) ∧
        (u.aabPath = none → b2.aabPath = b.aabPath) ∧
        (u.keystorePath = none → b2.keystorePath = b.keystorePath) ∧
        (u.errorMessage = none → b2.errorMessage = b.errorMessage) ∧
        (u.progress = none → b2.progress = b.progress) ∧
        (u.buildStep = none → b2.buildStep = b.buildStep) ∧
        (u.buildMessage = none → b2.buildMessage = b.buildMessage) ∧
        (∀ k, k ≠ id →
          MemStorage.getBuild (MemStorage.setBuild st id b2) k = MemStorage.getBuild st k)) := by
  constructor
  · intro h
    unfold MemStorage.updateBuild
    rw [h]
  · intro b hb
    unfold MemStorage.updateBuild
    rw [hb]
    by_cases hc : u.status = some "success" ∨ u.status = some "failed"
    · refine ⟨{ MemStorage.applyBuildUpdate b u with completedAt := some now },
        ?_, ?_, rfl, rfl,
        ?_, ?_, ?_, ?_, ?_, ?_, ?_, ?_, ?_, ?_,
        fun k hk => getBuild_setBuild_ne st id k _ hk⟩
      · simp only [if_pos hc]
      · simp only [if_pos hc]
      all_goals (intro hu; simp [MemStorage.applyBuildUpdate, hu])
    · refine ⟨MemStorage.applyBuildUpdate b u,
        ?_, ?_, rfl, rfl,
        ?_, ?_, ?_, ?_, ?_, ?_, ?_, ?_, ?_, ?_,
        fun k hk => getBuild_setBuild_ne st id k _ hk⟩
      · simp only [if_neg hc]
      · simp only [if_neg hc, MemStorage.applyBuildUpdate]
      all_goals (intro hu; simp [MemStorage.applyBuildUpdate, hu])

/-- A concrete stored build used by the C9 witness. -/
def b0 : MemStorage.Build :=
  { id := 7, projectId := 1, status := "building", buildType := "apk",
    outputPath := none, aabPath := none, keystorePath := none,
    errorMessage := none, progress := some 15, buildStep := some "Creating project",
    buildMessage := some "Creating Android project structure...",
    startedAt := 100, completedAt := none }

/-- C9 witness: the unknown-id case and the known-id case, each discharged
at a concrete store and update. -/
theorem claim_C9_witness :
    MemStorage.updateBuild 200 [(7, b0)] 8 { status := some "failed" }
      = ([(7, b0)], .error "Build not found") ∧
    ∃ b2, MemStorage.updateBuild 200 [(7, b0)] 7 { status := some "failed" }
        = (MemStorage.setBuild [(7, b0)] 7 b2, .ok b2) ∧
      (b2.completedAt = if ({ status := some "failed" } : MemStorage.BuildUpdate).status
          = some "success" ∨ ({ status := some "failed" } : MemStorage.BuildUpdate).status
          = some "failed" then some 200 else b0.completedAt) ∧
      b2.id = b0.id ∧ b2.startedAt = b0.startedAt ∧
      (({ status := some "failed" } : MemStorage.BuildUpdate).projectId = none →
        b2.projectId = b0.projectId) ∧
      (({ status := some "failed" } : MemStorage.BuildUpdate).status = none →
        b2.status = b0.status) ∧
      (({ status := some "failed" } : MemStorage.BuildUpdate).buildType = none →
        b2.buildType = b0.buildType) ∧
      (({ status := some "failed" } : MemStorage.BuildUpdate).outputPath = none →
        b2.outputPath = b0.outputPath) ∧
      (({ status := some "failed" } : MemStorage.BuildUpdate).aabPath = none →
        b2.aabPath = b0.aabPath) ∧
      (({ status := some "failed" } : MemStorage.BuildUpdate).keystorePath = none →
        b2.keystorePath = b0.keystorePath) ∧
      (({ status := some "failed" } : MemStorage.BuildUpdate).errorMessage = none →
        b2.errorMessage = b0.errorMessage) ∧
      (({ status := some "failed" } : MemStorage.BuildUpdate).progress = none →
        b2.progress = b0.progress) ∧
      (({ status := some "failed" } : MemStorage.BuildUpdate).buildStep = none →
        b2.buildStep = b0.buildStep) ∧
      (({ status := some "failed" } : MemStorage.BuildUpdate).buildMessage = none →
        b2.buildMessage = b0.buildMessage) ∧
      (∀ k, k ≠ 7 →
        MemStorage.getBuild (MemStorage.setBuild [(7, b0)] 7 b2) k
          = MemStorage.getBuild [(7, b0)] k) :=
  ⟨(claim_C9_updateBuild 200 [(7, b0)] 8 { status := some "failed" }).1 rfl,
   (claim_C9_updateBuild 200 [(7, b0)] 7 { status := some "failed" }).2 b0 rfl⟩

/-! ## Claim C7 (assets copied verbatim) -/

/-- Looking up a name after a write returns the written content for that
name and is otherwise unaffected. -/
theorem lookupAsset_writeAsset (dir : List (String × Content))
    (n : String) (c : Content) (name : String) :
    RealAndroidBuildSystem.lookupAsset (RealAndroidBuildSystem.writeAsset dir n c) name
      = if n = name then some c
        else RealAndroidBuildSystem.lookupAsset dir name := by
  induction dir with
  | nil =>
    by_cases hn : n = name <;>
      simp [RealAndroidBuildSystem.writeAsset, RealAndroidBuildSystem.lookupAsset, hn]
  | cons hd tl ih =>
    rcases hd with ⟨k, v⟩
    by_cases hk : k = n
    · subst hk
      by_cases hn : k = name <;>
        simp [RealAndroidBuildSystem.writeAsset, RealAndroidBuildSystem.lookupAsset, hn]
    · by_cases hkn : k = name <;>
        by_cases hn : n = name <;>
          simp_all [RealAndroidBuildSystem.writeAsset, RealAndroidBuildSystem.lookupAsset]

/-- The assets directory after `copyWebAssets` maps each name to the
content of the last supplied pair with that name, falling back to the
initial directory. -/
theorem copyWebAssets_lookup (files : List (String × Content))
    (dir : List (String × Content)) (name : String) :
    RealAndroidBuildSystem.lookupAsset (RealAndroidBuildSystem.copyWebAssets dir files) name
      = match RealAndroidBuildSystem.lastContent files name with
        | some c => some c
        | none => RealAndroidBuildSystem.lookupAsset dir name := by
  induction files generalizing dir with
  | nil => rfl
  | cons f fs ih =>
    rcases f with ⟨n, c⟩
    have h1 : RealAndroidBuildSystem.copyWebAssets dir ((n, c) :: fs)
        = RealAndroidBuildSystem.copyWebAssets (RealAndroidBuildSystem.writeAsset dir n c) fs := rfl
    rw [h1, ih, lookupAsset_writeAsset]
    cases hl : RealAndroidBuildSystem.lastContent fs name <;>
      by_cases hn : n = name <;>
        simp [RealAndroidBuildSystem.lastContent, hl, hn]

/-- The duplicate-path file list used as the C7 counterexample. -/
def dupFiles : List (String × Content) := [("a.html", "one"), ("a.html", "two")]

/-- C7 counterexample: when the supplied file list carries the same
relative path twice with different contents, the later write overwrites
the earlier one, so not every supplied pair ends up verbatim in the
assets area — the pair ("a.html", "one") is supplied but the assets hold
"two" at that path. -/
theorem claim_C7_counterexample :
    ("a.html", ("one" : Content)) ∈ dupFiles ∧
    RealAndroidBuildSystem.lookupAsset
      (RealAndroidBuildSystem.copyWebAssets [] dupFiles) "a.html" = some "two" ∧
    ¬ (∀ p ∈ dupFiles,
        RealAndroidBuildSystem.lookupAsset
          (RealAndroidBuildSystem.copyWebAssets [] dupFiles) p.1 = some p.2) := by
  decide

/-- C7 amended: the supplied pairs are written into the assets area in
order, a later pair overwriting an earlier pair with the same path, so
the assets map each path to the content of the last pair carrying it (in
particular, when paths are distinct every pair is present verbatim); for
source = [("index.html", "<h1>hi</h1>")] the manually assembled package's
assets contain exactly `index.html` with byte-identical content. -/
theorem claim_C7_amended :
    (∀ (files : List (String × Content)) (name : String),
      RealAndroidBuildSystem.lookupAsset
          (RealAndroidBuildSystem.copyWebAssets [] files) name
        = RealAndroidBuildSystem.lastContent files name) ∧
    RealAndroidBuildSystem.copyWebAssets [] [("index.html", "<h1>hi</h1>")]
      = [("index.html", "<h1>hi</h1>")] ∧
    RealAndroidBuildSystem.apkAssets
        (RealAndroidBuildSystem.createManualAPK (some "manifest") []
          (RealAndroidBuildSystem.copyWebAssets [] [("index.html", "<h1>hi</h1>")]))
      = [("assets/index.html", "<h1>hi</h1>")] := by
  refine ⟨fun files name => ?_, by decide, by decide⟩
  rw [copyWebAssets_lookup]
  cases RealAndroidBuildSystem.lastContent files name <;> rfl

/-! ## Claim C10 (upload file filter) -/

/-- A successful extension scan decomposes the reversed path as the
reversed extension body, the dot, and a nonempty remainder that does not
begin with a separator. -/
theorem extAfterRev_some (r a : List Char)
    (h : UploadFilter.extAfterRev r = some a) :
    ∃ p, r = a ++ '.' :: p ∧ ('/' : Char) ∉ a ∧ ('.' : Char) ∉ a ∧
      p ≠ [] ∧ p.head? ≠ some '/' := by
  induction r generalizing a with
  | nil => simp [UploadFilter.extAfterRev] at h
  | cons c rest ih =>
    by_cases hc : c = '/'
    · simp [UploadFilter.extAfterRev, hc] at h
    · by_cases hcd : c = '.'
      · subst hcd
        cases rest with
        | nil => simp [UploadFilter.extAfterRev, hc] at h
        | cons d t =>
          by_cases hds : d = '/'
          · simp [UploadFilter.extAfterRev, hc, hds] at h
          · simp [UploadFilter.extAfterRev, hc, hds] at h
            subst h
            refine ⟨d :: t, rfl, by simp, by simp, by simp, ?_⟩
            simp [hds]
      · cases hE : UploadFilter.extAfterRev rest with
        | none => simp [UploadFilter.extAfterRev, hc, hcd, hE] at h
        | some a2 =>
          simp [UploadFilter.extAfterRev, hc, hcd, hE] at h
          obtain ⟨p, hr, hs, hdt, hp, hh⟩ := ih a2 hE
          subst h
          refine ⟨p, by rw [hr]; rfl, ?_, ?_, hp, hh⟩
          · intro hm
            rcases List.mem_cons.mp hm with h1 | h1
            · exact hc h1.symm
            · exact hs h1
          · intro hm
            rcases List.mem_cons.mp hm with h1 | h1
            · exact hcd h1.symm
            · exact hdt h1

/-- Conversely, a reversed path of that shape scans to exactly the
reversed extension body. -/
theorem extAfterRev_append (a p : List Char)
    (hs : ('/' : Char) ∉ a) (hd : ('.' : Char) ∉ a)
    (hp : p ≠ []) (hh : p.head? ≠ some '/') :
    UploadFilter.extAfterRev (a ++ '.' :: p) = some a := by
  induction a with
  | nil =>
    cases p with
    | nil => exact absurd rfl hp
    | cons d t =>
      have hds : ¬ d = '/' := fun h => hh (by rw [h]; rfl)
      simp [UploadFilter.extAfterRev, hds]
  | cons c a2 ih =>
    have hc : ¬ c = '/' := fun h => by subst h; exact hs (List.mem_cons_self _ _)
    have hcd : ¬ c = '.' := fun h => by subst h; exact hd (List.mem_cons_self _ _)
    have hs2 : ('/' : Char) ∉ a2 := fun hm => hs (List.mem_cons_of_mem _ hm)
    have hd2 : ('.' : Char) ∉ a2 := fun hm => hd (List.mem_cons_of_mem _ hm)
    simp [UploadFilter.extAfterRev, hc, hcd, ih hs2 hd2]

/-- Lower-casing fixes the dot. -/
theorem toLower_dot : Char.toLower '.' = '.' := by decide

/-- C10: the multer filter accepts a filename exactly when its
extension — the final dot-suffix of its basename, the dot not being the
basename's first character — is, compared case-insensitively, one of
.html, .css, .js, .png, .jpg, .jpeg, .gif, .svg; and an upload request
containing any rejected file errors with `Invalid file type` before the
route handler (which creates the project file records) runs. -/
theorem claim_C10_upload_filter (name : String) :
    (UploadFilter.fileFilterAccept name = true ↔
      UploadFilter.hasAllowedExtension name) ∧
    (∀ files : List String, (∃ f ∈ files, UploadFilter.fileFilterAccept f = false) →
      UploadFilter.handleUpload files = .error "Invalid file type") := by
  constructor
  · constructor
    · intro h
      have hmem : UploadFilter.lowerStr (UploadFilter.extname name)
          ∈ UploadFilter.allowedTypes := by
        simpa [UploadFilter.fileFilterAccept] using h
      cases hE : UploadFilter.extAfterRev name.toList.reverse with
      | none =>
        have hx : UploadFilter.extname name = "" := by
          unfold UploadFilter.extname UploadFilter.extnameList
          rw [hE]
        rw [hx] at hmem
        exact absurd hmem (by decide)
      | some a =>
        have hx : UploadFilter.extname name = String.mk ('.' :: a.reverse) := by
          unfold UploadFilter.extname UploadFilter.extnameList
          rw [hE]
        obtain ⟨p, hr, hs, hdt, hp, hh⟩ := extAfterRev_some _ _ hE
        refine ⟨p.reverse, a.reverse, ?_, ?_, ?_, ?_, ?_, ?_⟩
        · have h2 := congrArg List.reverse hr
          simp only [List.reverse_reverse] at h2
          rw [h2]
          simp [List.reverse_append, List.append_assoc]
        · simp [List.mem_reverse, hdt]
        · simp [List.mem_reverse, hs]
        · simp [hp]
        · rw [List.getLast?_reverse]
          exact hh
        · rw [hx] at hmem
          simpa [UploadFilter.lowerStr, toLower_dot] using hmem
    · rintro ⟨pre, suf, hcs, hdot, hslash, hpre, hlast, hmem⟩
      have hr : name.toList.reverse = suf.reverse ++ '.' :: pre.reverse := by
        rw [hcs]
        simp [List.reverse_append]
      have hE : UploadFilter.extAfterRev name.toList.reverse = some suf.reverse := by
        rw [hr]
        refine extAfterRev_append _ _ ?_ ?_ ?_ ?_
        · simp [List.mem_reverse, hslash]
        · simp [List.mem_reverse, hdot]
        · simp [hpre]
        · rw [List.head?_reverse]
          exact hlast
      have hx : UploadFilter.extname name = String.mk ('.' :: suf) := by
        unfold UploadFilter.extname UploadFilter.extnameList
        rw [hE]
        simp
      have : UploadFilter.lowerStr (UploadFilter.extname name)
          = String.mk ('.' :: suf.map Char.toLower) := by
        rw [hx]
        simp [UploadFilter.lowerStr, toLower_dot]
      simp only [UploadFilter.fileFilterAccept]
      rw [this]
      simpa using hmem
  · rintro files ⟨f, hf, hacc⟩
    unfold UploadFilter.handleUpload
    rw [if_neg]
    intro hall
    have := List.all_eq_true.mp hall f hf
    rw [hacc] at this
    exact Bool.noConfusion this

/-- C10 witness: a concrete accepted filename with its extension in upper
case, and a concrete rejected upload. -/
theorem claim_C10_witness :
    UploadFilter.hasAllowedExtension "photo.JPG" ∧
    UploadFilter.handleUpload ["malware.exe"] = .error "Invalid file type" :=
  ⟨(claim_C10_upload_filter "photo.JPG").1.mp (by decide),
   (claim_C10_upload_filter "x").2 ["malware.exe"]
     ⟨"malware.exe", by decide, by decide⟩⟩




